import Mathlib

/-!
Verification of the CityLens AI Explorer core: the pure audio decoding
routines of GeminiService.ts and the pipeline orchestration of App.tsx,
shallowly embedded as Lean definitions, with theorems settling the
specification claims.
-/

set_option maxRecDepth 4000

namespace CityLens

/-! ## Base64 decoding (decodeBase64 in GeminiService.ts)

The source calls the platform routine atob, which implements the WHATWG
forgiving-base64 decode: strip ASCII whitespace, strip up to two trailing
padding characters when the length is a multiple of 4, reject a remaining
length congruent to 1 mod 4 and any character outside the base64 alphabet,
then decode 6-bit groups into bytes.  decodeBase64 then copies each code
unit of the binary string into a byte, which is the identity on the byte
values atob produced.  Failure (the thrown exception) is modelled as none. -/

def b64Alphabet : List Char :=
  ['A','B','C','D','E','F','G','H','I','J','K','L','M','N','O','P','Q','R',
   'S','T','U','V','W','X','Y','Z','a','b','c','d','e','f','g','h','i','j',
   'k','l','m','n','o','p','q','r','s','t','u','v','w','x','y','z','0','1',
   '2','3','4','5','6','7','8','9','+','/']

def b64IndexFrom (c : Char) : List Char → Option Nat
  | [] => none
  | a :: rest => if a = c then some 0 else (b64IndexFrom c rest).map (· + 1)

def b64Index (c : Char) : Option Nat :=
  b64IndexFrom c b64Alphabet

def isB64Ws (c : Char) : Bool :=
  c = '\t' || c = '\n' || c = '\x0c' || c = '\r' || c = ' '

def stripWs (l : List Char) : List Char :=
  l.filter (fun c => !isB64Ws c)

def stripPad (l : List Char) : List Char :=
  if l.length % 4 = 0 then
    match l.reverse with
    | c1 :: rest1 =>
      if c1 = '=' then
        match rest1 with
        | c2 :: rest2 => if c2 = '=' then rest2.reverse else rest1.reverse
        | [] => rest1.reverse
      else l
    | [] => l
  else l

def decodeSextets : List Nat → List Nat
  | a :: b :: c :: d :: rest =>
      (a * 4 + b / 16) :: ((b % 16) * 16 + c / 4) :: ((c % 4) * 64 + d) ::
        decodeSextets rest
  | [a, b, c] => [a * 4 + b / 16, (b % 16) * 16 + c / 4]
  | [a, b] => [a * 4 + b / 16]
  | [_] => []
  | [] => []

def atobBytes (s : String) : Option (List Nat) :=
  if (stripPad (stripWs s.data)).length % 4 = 1 then none
  else if (stripPad (stripWs s.data)).all (fun c => (b64Index c).isSome) then
    some (decodeSextets
      ((stripPad (stripWs s.data)).map (fun c => (b64Index c).getD 0)))
  else none

def decodeBase64 (s : String) : Option (List Nat) :=
  atobBytes s

/-- Modelled from the spec: a standard base64 encoder (the inverse wire
format, btoa-style, with padding), used only to state the round-trip
property of decodeBase64; the repository itself never encodes. -/
def b64Char (v : Nat) : Char :=
  b64Alphabet.getD (v % 64) 'A'

def toSextets : List Nat → List Nat
  | x :: y :: z :: rest =>
      x / 4 :: ((x % 4) * 16 + y / 16) :: ((y % 16) * 4 + z / 64) :: z % 64 ::
        toSextets rest
  | [x, y] => [x / 4, (x % 4) * 16 + y / 16, (y % 16) * 4]
  | [x] => [x / 4, (x % 4) * 16]
  | [] => []

def padChars (n : Nat) : List Char :=
  match n % 3 with
  | 1 => ['=', '=']
  | 2 => ['=']
  | _ => []

def encodeBase64 (bytes : List Nat) : String :=
  ⟨(toSextets bytes).map b64Char ++ padChars bytes.length⟩

/-- Well-formedness of a base64 string, written from the spec's words: after
whitespace and padding stripping, every character is in the alphabet and the
length is not congruent to 1 mod 4. -/
def wellFormedB64 (s : String) : Bool :=
  decide ((stripPad (stripWs s.data)).length % 4 ≠ 1) &&
    (stripPad (stripWs s.data)).all (fun c => (b64Index c).isSome)

/-! ## PCM16 audio decoding (decodeAudioData in GeminiService.ts)

The source reinterprets the byte buffer as an Int16Array (signed 16-bit
little-endian samples), computes frameCount as the sample count divided by
the channel count, allocates an AudioBuffer, and writes for each channel
and frame the sample at the interleaved index divided by 32768.0.  Every
value of the form k / 32768 with |k| ≤ 32768 is exactly representable as a
32-bit float and the division is exact, so the float samples are modelled
as rationals. -/

def toInt16 (v : Nat) : Int :=
  if v < 32768 then (v : Int) else (v : Int) - 65536

def bytesToInt16 : List Nat → List Int
  | lo :: hi :: rest => toInt16 (lo + 256 * hi) :: bytesToInt16 rest
  | _ => []

structure AudioBuffer where
  numberOfChannels : Nat
  length : Nat
  sampleRate : Nat
  channelData : List (List ℚ)
  deriving Repr, DecidableEq

def decodeAudioData (data : List Nat) (sampleRate : Nat) (numChannels : Nat) :
    AudioBuffer :=
  let dataInt16 := bytesToInt16 data
  let frameCount := dataInt16.length / numChannels
  { numberOfChannels := numChannels
    length := frameCount
    sampleRate := sampleRate
    channelData :=
      (List.range numChannels).map (fun channel =>
        (List.range frameCount).map (fun i =>
          ((dataInt16.getD (i * numChannels + channel) 0 : ℚ) / 32768))) }

/-- Modelled from the spec: the little-endian encoding of a list of signed
16-bit samples into bytes, used to state the decode round-trip; the
repository only decodes this wire format. -/
def encodeInt16LE : List Int → List Nat
  | [] => []
  | s :: rest =>
      (s % 65536).toNat % 256 :: (s % 65536).toNat / 256 :: encodeInt16LE rest

/-! ## Data model (types.ts) -/

structure SourceRef where
  title : Option String
  uri : Option String
  deriving Repr, DecidableEq

structure LandmarkAnalysis where
  name : String
  history : String
  sources : List SourceRef
  audioData : Option String
  deriving Repr, DecidableEq

inductive AppState where
  | IDLE
  | LOADING_IMAGE
  | SEARCHING_HISTORY
  | GENERATING_AUDIO
  | PLAYING
  | ERROR
  deriving Repr, DecidableEq

/-! ## Service responses (GeminiService.ts)

Each remote call either raises an error (err, carrying the optional error
message) or returns a response; only the response fields the code reads are
modelled.  A JavaScript value that may be undefined is an Option, and the
falsy coalescing of undefined-or-empty strings is orElseStr. -/

structure Web where
  title : Option String
  uri : Option String
  deriving Repr, DecidableEq

structure GroundingChunk where
  web : Option Web
  deriving Repr, DecidableEq

inductive SvcResult (α : Type) where
  | ok (val : α)
  | err (msg : Option String)
  deriving Repr

structure Services where
  identify : SvcResult (Option String)
  research : SvcResult (Option String × Option (List GroundingChunk))
  narrate : SvcResult (Option String)

/-- JavaScript: s || d for strings, where undefined and the empty string
are falsy. -/
def orElseStr (s : Option String) (d : String) : String :=
  match s with
  | none => d
  | some t => if t = "" then d else t

/-- JavaScript String.prototype.trim whitespace. -/
def isJsWs (c : Char) : Bool :=
  c = ' ' || c = '\t' || c = '\n' || c = '\r' || c = '\x0b' || c = '\x0c'

/-- JavaScript String.prototype.trim: strip leading and trailing
whitespace. -/
def jsTrim (s : String) : String :=
  ⟨((s.data.dropWhile isJsWs).reverse.dropWhile isJsWs).reverse⟩

/-- identifyLandmark result from the response text:
response.text?.trim() || "Unknown". -/
def identifyLandmark (text : Option String) : String :=
  orElseStr (text.map jsTrim) "Unknown"

def chunkToSource (c : GroundingChunk) : SourceRef :=
  match c.web with
  | some w => { title := w.title, uri := w.uri }
  | none => { title := none, uri := none }

/-- The source filters the chunks for a truthy web field, then maps each to
a title and uri copied from the web reference. -/
def extractSources (chunks : List GroundingChunk) : List SourceRef :=
  (chunks.filter (fun c => c.web.isSome)).map chunkToSource

/-- groundingChunks?.filter(...)?.map(...) || []: a missing chunk list
yields the empty source list. -/
def sourcesOf (chunks : Option (List GroundingChunk)) : List SourceRef :=
  match chunks with
  | none => []
  | some cs => extractSources cs

/-- getLandmarkHistory result from the response text and grounding chunks:
history is response.text || "History unavailable.", sources as above. -/
def getLandmarkHistory (rtext : Option String)
    (chunks : Option (List GroundingChunk)) : String × List SourceRef :=
  (orElseStr rtext "History unavailable.", sourcesOf chunks)

/-- generateNarration: reads the inlineData audio payload; if it is falsy
(undefined or empty) it throws Error("Audio generation failed"), otherwise
it returns the payload. -/
def generateNarration (audio : Option String) : Except (Option String) String :=
  match audio with
  | none => Except.error (some "Audio generation failed")
  | some a => if a = "" then Except.error (some "Audio generation failed") else Except.ok a

/-! ## The orchestrator (processImage and playAudio in App.tsx)

A run is modelled as the trace of observable actions it performs: state
transitions, error and analysis writes, service calls, audio control and
the interactive key-selection action, in program order. -/

inductive Event where
  | setState (s : AppState)
  | setError (e : Option String)
  | setAnalysis (a : Option LandmarkAnalysis)
  | setImagePreview (p : Option String)
  | callIdentify
  | callResearch (name : String)
  | callNarrate (history : String)
  | stopAudio
  | startAudio (audio : String)
  | openSelectKey
  deriving Repr, DecidableEq

structure AppCtx where
  hasKey : Bool
  isApiKeyChecked : Bool
  audioSourceActive : Bool
  deriving Repr, DecidableEq

def credentialPattern : String := "Requested entity was not found"
def credentialMsg : String := "API key session expired. Please select your key again."
def unknownLandmarkMsg : String := "Could not identify a landmark in this photo."
def genericMsg : String := "An unexpected error occurred."

def hasPrefixL : List Char → List Char → Bool
  | [], _ => true
  | _ :: _, [] => false
  | a :: as, b :: bs => a = b && hasPrefixL as bs

def containsSub (sub : List Char) : List Char → Bool
  | [] => hasPrefixL sub []
  | c :: rest => hasPrefixL sub (c :: rest) || containsSub sub rest

/-- JavaScript String.prototype.includes. -/
def strIncludes (s sub : String) : Bool :=
  containsSub sub.data s.data

/-- err.message?.includes(pattern): undefined message is falsy. -/
def credMatch (m : Option String) : Bool :=
  (m.map (fun t => strIncludes t credentialPattern)).getD false

/-- The catch block of processImage: a credential-expired message gets the
re-authentication message and the interactive key selection, any other
failure surfaces its own message or the generic fallback; both paths end in
the ERROR state. -/
def catchTrace (m : Option String) : List Event :=
  if credMatch m then
    [Event.setError (some credentialMsg), Event.openSelectKey,
     Event.setState AppState.ERROR]
  else
    [Event.setError (some (orElseStr m genericMsg)), Event.setState AppState.ERROR]

/-- playAudio: stops the previous source when one exists, decodes, then
starts playback of the new buffer. -/
def playAudioTrace (active : Bool) (audio : String) : List Event :=
  (if active then [Event.stopAudio] else []) ++ [Event.startAudio audio]

/-- Step 3 of the try block: the narration call, the analysis write, the
transition to PLAYING and the playback, or the propagated failure. -/
def narrateStep (narv : SvcResult (Option String)) (name history : String)
    (sources : List SourceRef) (active : Bool) : List Event :=
  match narv with
  | SvcResult.err m => catchTrace m
  | SvcResult.ok audio =>
    match generateNarration audio with
    | Except.error m => catchTrace m
    | Except.ok a =>
      Event.setAnalysis (some
        { name := name, history := history, sources := sources,
          audioData := some a }) ::
      Event.setState AppState.PLAYING ::
      playAudioTrace active a

/-- Step 2 of the try block: the history search and the hand-off to the
narration step. -/
def researchStep (resv : SvcResult (Option String × Option (List GroundingChunk)))
    (narv : SvcResult (Option String)) (name : String) (active : Bool) :
    List Event :=
  match resv with
  | SvcResult.err m => catchTrace m
  | SvcResult.ok (rtext, chunks) =>
    Event.setState AppState.GENERATING_AUDIO ::
    Event.callNarrate (getLandmarkHistory rtext chunks).1 ::
    narrateStep narv name (getLandmarkHistory rtext chunks).1
      (getLandmarkHistory rtext chunks).2 active

/-- Step 1 of the try block: identification, with the Unknown sentinel
short-circuit. -/
def identifyStep (idv : SvcResult (Option String))
    (resv : SvcResult (Option String × Option (List GroundingChunk)))
    (narv : SvcResult (Option String)) (active : Bool) : List Event :=
  match idv with
  | SvcResult.err m => catchTrace m
  | SvcResult.ok text =>
    if identifyLandmark text = "Unknown" then catchTrace (some unknownLandmarkMsg)
    else
      Event.setState AppState.SEARCHING_HISTORY ::
      Event.callResearch (identifyLandmark text) ::
      researchStep resv narv (identifyLandmark text) active

/-- The try block of processImage, from the identify call onwards. -/
def pipelineTrace (svc : Services) (audioActive : Bool) : List Event :=
  Event.callIdentify ::
    identifyStep svc.identify svc.research svc.narrate audioActive

/-- processImage: the API-key gate, then the state reset, the preview write
and the pipeline. -/
def processImageTrace (ctx : AppCtx) (preview : String) (svc : Services) :
    List Event :=
  if !ctx.hasKey && !ctx.isApiKeyChecked then [Event.openSelectKey]
  else
    Event.setState AppState.LOADING_IMAGE :: Event.setError none ::
    Event.setAnalysis none :: Event.setImagePreview (some preview) ::
    pipelineTrace svc ctx.audioSourceActive

/-! ## Trace observations -/

def finalState (tr : List Event) : Option AppState :=
  tr.foldl (fun acc e => match e with | Event.setState s => some s | _ => acc) none

def finalError (tr : List Event) : Option (Option String) :=
  tr.foldl (fun acc e => match e with | Event.setError o => some o | _ => acc) none

def analysisWrites (tr : List Event) : List (Option LandmarkAnalysis) :=
  tr.filterMap (fun e => match e with | Event.setAnalysis a => some a | _ => none)

def callsResearch (tr : List Event) : Bool :=
  tr.any (fun e => match e with | Event.callResearch _ => true | _ => false)

def callsNarrate (tr : List Event) : Bool :=
  tr.any (fun e => match e with | Event.callNarrate _ => true | _ => false)

def callsNarrateWith (tr : List Event) (h : String) : Bool :=
  tr.any (fun e => decide (e = Event.callNarrate h))

def reachesPlaying (tr : List Event) : Bool :=
  tr.any (fun e => decide (e = Event.setState AppState.PLAYING))

def opensSelectKey (tr : List Event) : Bool :=
  tr.any (fun e => decide (e = Event.openSelectKey))

/-! ## Helper lemmas -/

theorem credMatch_unknown : credMatch (some unknownLandmarkMsg) = false := by decide

theorem credMatch_audiofail :
    credMatch (some "Audio generation failed") = false := by decide

theorem processImageTrace_run (ctx : AppCtx) (preview : String) (svc : Services)
    (hgate : (!ctx.hasKey && !ctx.isApiKeyChecked) = false) :
    processImageTrace ctx preview svc =
      [Event.setState AppState.LOADING_IMAGE, Event.setError none,
       Event.setAnalysis none, Event.setImagePreview (some preview)] ++
        pipelineTrace svc ctx.audioSourceActive := by
  unfold processImageTrace
  rw [hgate]
  rfl

theorem catchTrace_generic (m : Option String) (hc : credMatch m = false) :
    catchTrace m =
      [Event.setError (some (orElseStr m genericMsg)),
       Event.setState AppState.ERROR] := by
  unfold catchTrace
  rw [hc]
  rfl

theorem catchTrace_cred (m : Option String) (hc : credMatch m = true) :
    catchTrace m =
      [Event.setError (some credentialMsg), Event.openSelectKey,
       Event.setState AppState.ERROR] := by
  unfold catchTrace
  rw [hc]
  rfl

/-- C2: whenever the identify step returns exactly the string "Unknown",
the run ends in the ERROR state carrying the could-not-identify message,
and neither the research call nor the narrate call occurs. -/
theorem c2_unknown_sentinel_fails_without_further_calls
    (ctx : AppCtx) (preview : String) (svc : Services) (text : Option String)
    (hgate : (!ctx.hasKey && !ctx.isApiKeyChecked) = false)
    (hid : svc.identify = SvcResult.ok text)
    (hunk : identifyLandmark text = "Unknown") :
    finalState (processImageTrace ctx preview svc) = some AppState.ERROR ∧
    finalError (processImageTrace ctx preview svc) =
      some (some unknownLandmarkMsg) ∧
    callsResearch (processImageTrace ctx preview svc) = false ∧
    callsNarrate (processImageTrace ctx preview svc) = false := by
  rw [processImageTrace_run ctx preview svc hgate]
  unfold pipelineTrace
  rw [hid]
  simp only [identifyStep]
  rw [if_pos hunk, catchTrace_generic _ credMatch_unknown]
  refine ⟨rfl, rfl, rfl, rfl⟩

/-- Witness for C2 at a concrete run where the service answers "Unknown". -/
theorem c2_witness :
    finalState (processImageTrace ⟨true, true, false⟩ "img"
      { identify := SvcResult.ok (some "Unknown")
        research := SvcResult.ok (some "H", none)
        narrate := SvcResult.ok (some "AAB") }) = some AppState.ERROR ∧
    finalError (processImageTrace ⟨true, true, false⟩ "img"
      { identify := SvcResult.ok (some "Unknown")
        research := SvcResult.ok (some "H", none)
        narrate := SvcResult.ok (some "AAB") }) =
      some (some unknownLandmarkMsg) ∧
    callsResearch (processImageTrace ⟨true, true, false⟩ "img"
      { identify := SvcResult.ok (some "Unknown")
        research := SvcResult.ok (some "H", none)
        narrate := SvcResult.ok (some "AAB") }) = false ∧
    callsNarrate (processImageTrace ⟨true, true, false⟩ "img"
      { identify := SvcResult.ok (some "Unknown")
        research := SvcResult.ok (some "H", none)
        narrate := SvcResult.ok (some "AAB") }) = false :=
  c2_unknown_sentinel_fails_without_further_calls _ _ _ (some "Unknown")
    (by decide) rfl (by decide)

/-- C3: when the narrate service response carries no audio payload
(undefined or empty), the narrate step fails with the explicit audio
generation failure, the run ends in the ERROR state carrying that message,
the PLAYING state is never reached and the analysis is never populated:
there is no soft fallback. -/
theorem c3_missing_audio_is_hard_failure
    (ctx : AppCtx) (preview : String) (svc : Services) (text : Option String)
    (rt : Option String) (ch : Option (List GroundingChunk))
    (audio : Option String)
    (hgate : (!ctx.hasKey && !ctx.isApiKeyChecked) = false)
    (hid : svc.identify = SvcResult.ok text)
    (hname : identifyLandmark text ≠ "Unknown")
    (hres : svc.research = SvcResult.ok (rt, ch))
    (hnar : svc.narrate = SvcResult.ok audio)
    (hfalsy : audio = none ∨ audio = some "") :
    generateNarration audio = Except.error (some "Audio generation failed") ∧
    finalState (processImageTrace ctx preview svc) = some AppState.ERROR ∧
    finalError (processImageTrace ctx preview svc) =
      some (some "Audio generation failed") ∧
    reachesPlaying (processImageTrace ctx preview svc) = false ∧
    analysisWrites (processImageTrace ctx preview svc) = [none] := by
  have hgen : generateNarration audio =
      Except.error (some "Audio generation failed") := by
    rcases hfalsy with rfl | rfl <;> rfl
  refine ⟨hgen, ?_⟩
  rw [processImageTrace_run ctx preview svc hgate]
  unfold pipelineTrace
  rw [hid]
  simp only [identifyStep]
  rw [if_neg hname, hres]
  simp only [researchStep]
  rw [hnar]
  simp only [narrateStep]
  rw [hgen]
  dsimp only
  rw [catchTrace_generic _ credMatch_audiofail]
  exact ⟨rfl, rfl, rfl, rfl⟩

/-- Witness for C3 at a concrete run whose narrate response has no audio. -/
theorem c3_witness :
    finalState (processImageTrace ⟨true, true, false⟩ "img"
      { identify := SvcResult.ok (some "Eiffel Tower")
        research := SvcResult.ok (some "H", none)
        narrate := SvcResult.ok none }) = some AppState.ERROR :=
  (c3_missing_audio_is_hard_failure ⟨true, true, false⟩ "img" _
    (some "Eiffel Tower") (some "H") none none (by decide) rfl (by decide)
    rfl rfl (Or.inl rfl)).2.1

/-- C4: when the research response has empty or missing narrative text, the
returned history is the literal fallback string and the pipeline still
proceeds to the narration call with that fallback text. -/
theorem c4_missing_history_soft_fallback
    (ctx : AppCtx) (preview : String) (svc : Services) (text : Option String)
    (rt : Option String) (ch : Option (List GroundingChunk))
    (hgate : (!ctx.hasKey && !ctx.isApiKeyChecked) = false)
    (hid : svc.identify = SvcResult.ok text)
    (hname : identifyLandmark text ≠ "Unknown")
    (hres : svc.research = SvcResult.ok (rt, ch))
    (hempty : rt = none ∨ rt = some "") :
    (getLandmarkHistory rt ch).1 = "History unavailable." ∧
    callsNarrateWith (processImageTrace ctx preview svc)
      "History unavailable." = true := by
  have hh : (getLandmarkHistory rt ch).1 = "History unavailable." := by
    rcases hempty with rfl | rfl <;> rfl
  refine ⟨hh, ?_⟩
  rw [processImageTrace_run ctx preview svc hgate]
  unfold pipelineTrace
  rw [hid]
  simp only [identifyStep]
  rw [if_neg hname, hres]
  simp only [researchStep]
  rw [hh]
  rfl

/-- Witness for C4 at a concrete run whose research response has no text. -/
theorem c4_witness :
    callsNarrateWith (processImageTrace ⟨true, true, false⟩ "img"
      { identify := SvcResult.ok (some "Eiffel Tower")
        research := SvcResult.ok (none, none)
        narrate := SvcResult.ok (some "AAB") })
      "History unavailable." = true :=
  (c4_missing_history_soft_fallback ⟨true, true, false⟩ "img" _
    (some "Eiffel Tower") none none (by decide) rfl (by decide) rfl
    (Or.inl rfl)).2

/-- Modelled from the spec: the sources sequence contains exactly the
entries carrying a web reference, in their original order, with title and
uri copied verbatim from the web reference. -/
def specSources (chunks : List GroundingChunk) : List SourceRef :=
  chunks.filterMap (fun c => c.web.map (fun w => { title := w.title, uri := w.uri }))

/-- C5: the extracted sources are exactly the grounding entries that carry
a web reference, in original order, with title and uri copied verbatim;
entries without a web reference are dropped silently. -/
theorem c5_sources_are_web_entries_in_order (chunks : List GroundingChunk) :
    sourcesOf (some chunks) = specSources chunks := by
  unfold sourcesOf
  induction chunks with
  | nil => rfl
  | cons c cs ih =>
    cases hw : c.web with
    | none =>
      simp [extractSources, specSources, List.filter_cons, hw] at ih ⊢
      exact ih
    | some w =>
      simp [extractSources, specSources, List.filter_cons, hw,
        chunkToSource] at ih ⊢
      exact ih

/-- C6 counterexample: a grounding entry whose web reference has a missing
title produces a source reference whose title is the missing value, not
the empty string. -/
theorem c6_counterexample :
    extractSources [⟨some ⟨none, some "https://x"⟩⟩] =
      [{ title := none, uri := some "https://x" }] ∧
    ¬ ({ title := none, uri := some "https://x" } : SourceRef).title = some "" :=
  ⟨rfl, by decide⟩

/-- C6 amended: the title of a constructed source reference is copied
verbatim from the web reference: an empty title stays the empty string, a
missing title stays missing, and in neither case does extraction fail. -/
theorem c6_amended_title_copied_verbatim (t u : Option String) :
    chunkToSource ⟨some ⟨t, u⟩⟩ = { title := t, uri := u } ∧
    extractSources [⟨some ⟨t, u⟩⟩] = [{ title := t, uri := u }] :=
  ⟨rfl, rfl⟩

/-- C7 counterexample: a new image submitted while a previous playback is
active (audioSourceActive) resets the state to LOADING_IMAGE as the very
first action of the run, with no stop of the active playback before it;
the stop happens only later in the trace. -/
theorem c7_counterexample :
    (⟨true, true, true⟩ : AppCtx).audioSourceActive = true ∧
    (processImageTrace ⟨true, true, true⟩ "p"
      { identify := SvcResult.ok (some "Eiffel Tower")
        research := SvcResult.ok (some "H", none)
        narrate := SvcResult.ok (some "AAB") }).head? =
      some (Event.setState AppState.LOADING_IMAGE) ∧
    Event.stopAudio ∈ processImageTrace ⟨true, true, true⟩ "p"
      { identify := SvcResult.ok (some "Eiffel Tower")
        research := SvcResult.ok (some "H", none)
        narrate := SvcResult.ok (some "AAB") } := by
  refine ⟨rfl, rfl, ?_⟩
  decide

/-- C7 amended: when a new image is submitted while a previous playback is
active, the active playback is not stopped before the reset to the loading
stage; on a successful run it is stopped exactly once, immediately before
the new playback starts. -/
theorem c7_amended_stop_only_before_new_playback
    (ctx : AppCtx) (preview : String) (svc : Services) (text : Option String)
    (rt : Option String) (ch : Option (List GroundingChunk)) (a : String)
    (hgate : (!ctx.hasKey && !ctx.isApiKeyChecked) = false)
    (hactive : ctx.audioSourceActive = true)
    (hid : svc.identify = SvcResult.ok text)
    (hname : identifyLandmark text ≠ "Unknown")
    (hres : svc.research = SvcResult.ok (rt, ch))
    (hnar : svc.narrate = SvcResult.ok (some a))
    (ha : a ≠ "") :
    ∃ pre, processImageTrace ctx preview svc =
      pre ++ [Event.stopAudio, Event.startAudio a] ∧
      Event.stopAudio ∉ pre := by
  have hg : generateNarration (some a) = Except.ok a := by
    simp [generateNarration, ha]
  rw [processImageTrace_run ctx preview svc hgate]
  unfold pipelineTrace
  rw [hid]
  simp only [identifyStep]
  rw [if_neg hname, hres]
  simp only [researchStep]
  rw [hnar]
  simp only [narrateStep]
  rw [hg]
  dsimp only
  rw [hactive]
  refine ⟨[Event.setState AppState.LOADING_IMAGE, Event.setError none,
    Event.setAnalysis none, Event.setImagePreview (some preview),
    Event.callIdentify, Event.setState AppState.SEARCHING_HISTORY,
    Event.callResearch (identifyLandmark text),
    Event.setState AppState.GENERATING_AUDIO,
    Event.callNarrate (getLandmarkHistory rt ch).1,
    Event.setAnalysis (some
      { name := identifyLandmark text
        history := (getLandmarkHistory rt ch).1
        sources := (getLandmarkHistory rt ch).2
        audioData := some a }),
    Event.setState AppState.PLAYING], rfl, ?_⟩
  intro hmem
  simp at hmem

/-- Witness for C7's amended statement at a concrete pair of sessions. -/
theorem c7_amended_witness :
    ∃ pre, processImageTrace ⟨true, true, true⟩ "p"
      { identify := SvcResult.ok (some "Eiffel Tower")
        research := SvcResult.ok (some "H", none)
        narrate := SvcResult.ok (some "AAB") } =
      pre ++ [Event.stopAudio, Event.startAudio "AAB"] ∧
      Event.stopAudio ∉ pre :=
  c7_amended_stop_only_before_new_playback ⟨true, true, true⟩ "p" _
    (some "Eiffel Tower") (some "H") none "AAB" (by decide) rfl rfl
    (by decide) rfl rfl (by decide)

theorem catch_obs (l : List Event) (m : Option String)
    (hpre : opensSelectKey l = false) :
    (credMatch m = true →
      finalState (l ++ catchTrace m) = some AppState.ERROR ∧
      finalError (l ++ catchTrace m) = some (some credentialMsg) ∧
      opensSelectKey (l ++ catchTrace m) = true) ∧
    (credMatch m = false →
      finalState (l ++ catchTrace m) = some AppState.ERROR ∧
      finalError (l ++ catchTrace m) = some (some (orElseStr m genericMsg)) ∧
      opensSelectKey (l ++ catchTrace m) = false) := by
  constructor <;> intro hc
  · rw [catchTrace_cred m hc]
    refine ⟨?_, ?_, ?_⟩
    · unfold finalState
      rw [List.foldl_append]
      rfl
    · unfold finalError
      rw [List.foldl_append]
      rfl
    · unfold opensSelectKey at hpre ⊢
      rw [List.any_append, hpre]
      rfl
  · rw [catchTrace_generic m hc]
    refine ⟨?_, ?_, ?_⟩
    · unfold finalState
      rw [List.foldl_append]
      rfl
    · unfold finalError
      rw [List.foldl_append]
      rfl
    · unfold opensSelectKey at hpre ⊢
      rw [List.any_append, hpre]
      rfl

/-- C8: a stage failure whose error text contains the credential-expired
pattern ends in the ERROR state with the distinct re-authentication
message and triggers the interactive key selection; any other stage
failure ends in the ERROR state with the error's own message, or the
generic fallback when the error carries none or an empty message, and
does not trigger key selection.  The stage failure may occur at the
identify, research or narrate call. -/
theorem c8_credential_failures_get_reauth_others_generic
    (ctx : AppCtx) (preview : String) (svc : Services) (m : Option String)
    (hgate : (!ctx.hasKey && !ctx.isApiKeyChecked) = false)
    (hfail : svc.identify = SvcResult.err m ∨
      (∃ text, svc.identify = SvcResult.ok text ∧
        identifyLandmark text ≠ "Unknown" ∧
        svc.research = SvcResult.err m) ∨
      (∃ text rt ch, svc.identify = SvcResult.ok text ∧
        identifyLandmark text ≠ "Unknown" ∧
        svc.research = SvcResult.ok (rt, ch) ∧
        svc.narrate = SvcResult.err m)) :
    (credMatch m = true →
      finalState (processImageTrace ctx preview svc) = some AppState.ERROR ∧
      finalError (processImageTrace ctx preview svc) =
        some (some credentialMsg) ∧
      opensSelectKey (processImageTrace ctx preview svc) = true) ∧
    (credMatch m = false →
      finalState (processImageTrace ctx preview svc) = some AppState.ERROR ∧
      finalError (processImageTrace ctx preview svc) =
        some (some (orElseStr m genericMsg)) ∧
      opensSelectKey (processImageTrace ctx preview svc) = false) := by
  rw [processImageTrace_run ctx preview svc hgate]
  unfold pipelineTrace
  rcases hfail with hid | ⟨text, hid, hname, hres⟩ | ⟨text, rt, ch, hid, hname, hres, hnar⟩
  · rw [hid]
    simp only [identifyStep]
    exact catch_obs [Event.setState AppState.LOADING_IMAGE, Event.setError none,
      Event.setAnalysis none, Event.setImagePreview (some preview),
      Event.callIdentify] m rfl
  · rw [hid]
    simp only [identifyStep]
    rw [if_neg hname, hres]
    simp only [researchStep]
    exact catch_obs [Event.setState AppState.LOADING_IMAGE, Event.setError none,
      Event.setAnalysis none, Event.setImagePreview (some preview),
      Event.callIdentify, Event.setState AppState.SEARCHING_HISTORY,
      Event.callResearch (identifyLandmark text)] m rfl
  · rw [hid]
    simp only [identifyStep]
    rw [if_neg hname, hres]
    simp only [researchStep]
    rw [hnar]
    simp only [narrateStep]
    exact catch_obs [Event.setState AppState.LOADING_IMAGE, Event.setError none,
      Event.setAnalysis none, Event.setImagePreview (some preview),
      Event.callIdentify, Event.setState AppState.SEARCHING_HISTORY,
      Event.callResearch (identifyLandmark text),
      Event.setState AppState.GENERATING_AUDIO,
      Event.callNarrate (getLandmarkHistory rt ch).1] m rfl

/-- Witness for C8 at a concrete identify failure carrying the
credential-expired pattern. -/
theorem c8_witness :
    finalState (processImageTrace ⟨true, true, false⟩ "img"
      { identify := SvcResult.err
          (some "Error: Requested entity was not found.")
        research := SvcResult.ok (some "H", none)
        narrate := SvcResult.ok (some "AAB") }) = some AppState.ERROR ∧
    finalError (processImageTrace ⟨true, true, false⟩ "img"
      { identify := SvcResult.err
          (some "Error: Requested entity was not found.")
        research := SvcResult.ok (some "H", none)
        narrate := SvcResult.ok (some "AAB") }) = some (some credentialMsg) ∧
    opensSelectKey (processImageTrace ⟨true, true, false⟩ "img"
      { identify := SvcResult.err
          (some "Error: Requested entity was not found.")
        research := SvcResult.ok (some "H", none)
        narrate := SvcResult.ok (some "AAB") }) = true :=
  (c8_credential_failures_get_reauth_others_generic ⟨true, true, false⟩ "img"
    _ (some "Error: Requested entity was not found.") (by decide)
    (Or.inl rfl)).1 (by decide)

/-- C10: in every run past the key gate, the published analysis is first
cleared to null, and then written at most once more: exactly once, fully
populated with a present audio payload, when the run ends in PLAYING, and
never when the run ends in ERROR, so no partially populated analysis is
observable. -/
theorem c10_analysis_written_atomically
    (ctx : AppCtx) (preview : String) (svc : Services)
    (hgate : (!ctx.hasKey && !ctx.isApiKeyChecked) = false) :
    (analysisWrites (processImageTrace ctx preview svc)).head? = some none ∧
    (finalState (processImageTrace ctx preview svc) = some AppState.ERROR →
      analysisWrites (processImageTrace ctx preview svc) = [none]) ∧
    (finalState (processImageTrace ctx preview svc) = some AppState.PLAYING →
      ∃ a : LandmarkAnalysis,
        analysisWrites (processImageTrace ctx preview svc) = [none, some a] ∧
        a.audioData.isSome = true) := by
  rw [processImageTrace_run ctx preview svc hgate]
  unfold pipelineTrace
  rcases hi : svc.identify with text | m
  case err =>
    simp only [identifyStep]
    cases hcm : credMatch m
    · rw [catchTrace_generic _ hcm]
      exact ⟨rfl, fun _ => rfl, fun h => by simp [finalState] at h⟩
    · rw [catchTrace_cred _ hcm]
      exact ⟨rfl, fun _ => rfl, fun h => by simp [finalState] at h⟩
  case ok =>
    simp only [identifyStep]
    by_cases hu : identifyLandmark text = "Unknown"
    · rw [if_pos hu, catchTrace_generic _ credMatch_unknown]
      exact ⟨rfl, fun _ => rfl, fun h => by simp [finalState] at h⟩
    · rw [if_neg hu]
      rcases hr : svc.research with ⟨rt, ch⟩ | m
      · simp only [researchStep]
        rcases hn : svc.narrate with audio | m
        · simp only [narrateStep]
          rcases audio with _ | a
          · rw [show generateNarration none =
              Except.error (some "Audio generation failed") from rfl]
            dsimp only
            rw [catchTrace_generic _ credMatch_audiofail]
            exact ⟨rfl, fun _ => rfl, fun h => by simp [finalState] at h⟩
          · by_cases ha : a = ""
            · subst ha
              rw [show generateNarration (some "") =
                Except.error (some "Audio generation failed") from rfl]
              dsimp only
              rw [catchTrace_generic _ credMatch_audiofail]
              exact ⟨rfl, fun _ => rfl, fun h => by simp [finalState] at h⟩
            · have hg : generateNarration (some a) = Except.ok a := by
                simp [generateNarration, ha]
              rw [hg]
              dsimp only
              cases hact : ctx.audioSourceActive <;>
                exact ⟨rfl, fun h => by simp [finalState, playAudioTrace] at h,
                  fun _ => ⟨{ name := identifyLandmark text
                              history := (getLandmarkHistory rt ch).1
                              sources := (getLandmarkHistory rt ch).2
                              audioData := some a }, rfl, rfl⟩⟩
        · simp only [narrateStep]
          cases hcm : credMatch m
          · rw [catchTrace_generic _ hcm]
            exact ⟨rfl, fun _ => rfl, fun h => by simp [finalState] at h⟩
          · rw [catchTrace_cred _ hcm]
            exact ⟨rfl, fun _ => rfl, fun h => by simp [finalState] at h⟩
      · simp only [researchStep]
        cases hcm : credMatch m
        · rw [catchTrace_generic _ hcm]
          exact ⟨rfl, fun _ => rfl, fun h => by simp [finalState] at h⟩
        · rw [catchTrace_cred _ hcm]
          exact ⟨rfl, fun _ => rfl, fun h => by simp [finalState] at h⟩

/-- Witness for C10 at a concrete run that succeeds end to end. -/
theorem c10_witness :
    ∃ a : LandmarkAnalysis,
      analysisWrites (processImageTrace ⟨true, true, false⟩ "img"
        { identify := SvcResult.ok (some "Eiffel Tower")
          research := SvcResult.ok (some "H", none)
          narrate := SvcResult.ok (some "AAB") }) = [none, some a] ∧
      a.audioData.isSome = true :=
  (c10_analysis_written_atomically ⟨true, true, false⟩ "img"
    { identify := SvcResult.ok (some "Eiffel Tower")
      research := SvcResult.ok (some "H", none)
      narrate := SvcResult.ok (some "AAB") } (by decide)).2.2 rfl

theorem bytesToInt16_encodeInt16LE (samples : List Int)
    (h : ∀ s ∈ samples, -32768 ≤ s ∧ s < 32768) :
    bytesToInt16 (encodeInt16LE samples) = samples := by
  induction samples with
  | nil => rfl
  | cons s rest ih =>
    have hs := h s (List.mem_cons_self s rest)
    have hrest : ∀ x ∈ rest, -32768 ≤ x ∧ x < 32768 :=
      fun x hx => h x (List.mem_cons_of_mem s hx)
    rw [encodeInt16LE, bytesToInt16, ih hrest]
    congr 1
    rw [Nat.mod_add_div]
    unfold toInt16
    split <;> omega

/-- C1: decoding a well-formed interleaved PCM16 byte stream yields a
buffer with the requested channel count and sample rate, exactly N/C
frames per channel, and for channel c and frame i the exact float sample
int16[i*C+c] / 32768, each value lying in [-1, 1), with no clamping or
other transformation. -/
theorem c1_decodeAudioData_pcm16_exact
    (samples : List Int) (sampleRate numChannels : Nat)
    (hrange : ∀ s ∈ samples, -32768 ≤ s ∧ s < 32768)
    (hC : 0 < numChannels) (hdvd : numChannels ∣ samples.length) :
    (decodeAudioData (encodeInt16LE samples) sampleRate numChannels).numberOfChannels
        = numChannels ∧
    (decodeAudioData (encodeInt16LE samples) sampleRate numChannels).sampleRate
        = sampleRate ∧
    (decodeAudioData (encodeInt16LE samples) sampleRate numChannels).length
        = samples.length / numChannels ∧
    (decodeAudioData (encodeInt16LE samples) sampleRate numChannels).channelData.length
        = numChannels ∧
    ∀ c, c < numChannels →
      ((decodeAudioData (encodeInt16LE samples) sampleRate numChannels).channelData.getD
          c []).length = samples.length / numChannels ∧
      ∀ i, i < samples.length / numChannels →
        ((decodeAudioData (encodeInt16LE samples) sampleRate
            numChannels).channelData.getD c []).getD i 0 =
          (samples.getD (i * numChannels + c) 0 : ℚ) / 32768 ∧
        -1 ≤ ((decodeAudioData (encodeInt16LE samples) sampleRate
            numChannels).channelData.getD c []).getD i 0 ∧
        ((decodeAudioData (encodeInt16LE samples) sampleRate
            numChannels).channelData.getD c []).getD i 0 < 1 := by
  have hrt : bytesToInt16 (encodeInt16LE samples) = samples :=
    bytesToInt16_encodeInt16LE samples hrange
  unfold decodeAudioData
  rw [hrt]
  refine ⟨rfl, rfl, rfl, by simp, ?_⟩
  intro c hc
  have hchan : ((List.range numChannels).map (fun channel =>
      (List.range (samples.length / numChannels)).map (fun i =>
        ((samples.getD (i * numChannels + channel) 0 : ℚ) / 32768)))).getD c [] =
      (List.range (samples.length / numChannels)).map (fun i =>
        ((samples.getD (i * numChannels + c) 0 : ℚ) / 32768)) := by
    rw [List.getD_eq_get?, List.get?_map, List.get?_range hc]
    rfl
  rw [hchan]
  refine ⟨by simp, ?_⟩
  intro i hi
  have hval : ((List.range (samples.length / numChannels)).map (fun i =>
      ((samples.getD (i * numChannels + c) 0 : ℚ) / 32768))).getD i 0 =
      (samples.getD (i * numChannels + c) 0 : ℚ) / 32768 := by
    rw [List.getD_eq_get?, List.get?_map, List.get?_range hi]
    rfl
  rw [hval]
  refine ⟨rfl, ?_, ?_⟩
  all_goals
    have hj : i * numChannels + c < samples.length := by
      have h1 : (i + 1) * numChannels ≤
          (samples.length / numChannels) * numChannels :=
        Nat.mul_le_mul_right _ (by omega)
      rw [Nat.div_mul_cancel hdvd] at h1
      have h2 : i * numChannels + c < (i + 1) * numChannels := by
        rw [Nat.add_mul, Nat.one_mul]
        omega
      omega
    have hmem : samples.getD (i * numChannels + c) 0 ∈ samples := by
      rw [List.getD_eq_get?, List.get?_eq_get hj]
      exact List.get_mem samples _ hj
    have hb := hrange _ hmem
    have hbq : (-32768 : ℚ) ≤ (samples.getD (i * numChannels + c) 0 : ℚ) ∧
        (samples.getD (i * numChannels + c) 0 : ℚ) < 32768 :=
      ⟨by exact_mod_cast hb.1, by exact_mod_cast hb.2⟩
  · rw [le_div_iff (by norm_num : (0 : ℚ) < 32768)]
    linarith [hbq.1]
  · rw [div_lt_one (by norm_num : (0 : ℚ) < 32768)]
    exact hbq.2

/-- Witness for C1 at a concrete two-channel PCM16 buffer. -/
theorem c1_witness :
    ((decodeAudioData (encodeInt16LE [0, -32768, 32767, 1]) 24000
        2).channelData.getD 0 []).getD 1 0 =
      (([0, -32768, 32767, 1] : List Int).getD (1 * 2 + 0) 0 : ℚ) / 32768 :=
  ((c1_decodeAudioData_pcm16_exact [0, -32768, 32767, 1] 24000 2 (by decide)
    (by decide) (by decide)).2.2.2.2 0 (by decide)).2 1 (by decide) |>.1

theorem b64Index_b64Char : ∀ v, v < 64 → b64Index (b64Char v) = some v := by
  decide

theorem b64Char_not_ws (v : Nat) : isB64Ws (b64Char v) = false := by
  have h64 : v % 64 < 64 := Nat.mod_lt _ (by norm_num)
  have hall : ∀ w, w < 64 → isB64Ws (b64Alphabet.getD w 'A') = false := by decide
  exact hall _ h64

theorem b64Char_ne_pad (v : Nat) : b64Char v ≠ '=' := by
  have h64 : v % 64 < 64 := Nat.mod_lt _ (by norm_num)
  have hall : ∀ w, w < 64 → b64Alphabet.getD w 'A' ≠ '=' := by decide
  exact hall _ h64

theorem padChars_mem (n : Nat) (c : Char) (hc : c ∈ padChars n) : c = '=' := by
  have h3 : n % 3 = 0 ∨ n % 3 = 1 ∨ n % 3 = 2 := by omega
  unfold padChars at hc
  rcases h3 with h | h | h <;> rw [h] at hc <;> simp_all

theorem toSextets_length :
    ∀ bytes : List Nat, (toSextets bytes).length = (4 * bytes.length + 2) / 3
  | [] => by simp [toSextets]
  | [x] => by simp [toSextets]
  | [x, y] => by simp [toSextets]
  | x :: y :: z :: rest => by
      rw [toSextets]
      simp only [List.length_cons, toSextets_length rest]
      omega

theorem toSextets_lt :
    ∀ bytes : List Nat, (∀ b ∈ bytes, b < 256) → ∀ v ∈ toSextets bytes, v < 64
  | [], _, v, hv => by simp [toSextets] at hv
  | [x], h, v, hv => by
      have hx := h x (by simp)
      simp only [toSextets, List.mem_cons, List.not_mem_nil, or_false] at hv
      rcases hv with rfl | rfl <;> omega
  | [x, y], h, v, hv => by
      have hx := h x (by simp)
      have hy := h y (by simp)
      simp only [toSextets, List.mem_cons, List.not_mem_nil, or_false] at hv
      rcases hv with rfl | rfl | rfl <;> omega
  | x :: y :: z :: rest, h, v, hv => by
      have hx := h x (by simp)
      have hy := h y (by simp)
      have hz := h z (by simp)
      rw [toSextets] at hv
      simp only [List.mem_cons] at hv
      rcases hv with rfl | rfl | rfl | rfl | hv
      · omega
      · omega
      · omega
      · omega
      · exact toSextets_lt rest (fun b hb => h b (by simp [hb])) v hv

theorem decodeSextets_toSextets :
    ∀ bytes : List Nat, (∀ b ∈ bytes, b < 256) →
      decodeSextets (toSextets bytes) = bytes
  | [], _ => rfl
  | [x], h => by
      have hx := h x (by simp)
      show decodeSextets [x / 4, x % 4 * 16] = [x]
      show [x / 4 * 4 + x % 4 * 16 / 16] = [x]
      simp only [List.cons.injEq, and_true]
      omega
  | [x, y], h => by
      have hx := h x (by simp)
      have hy := h y (by simp)
      show decodeSextets [x / 4, x % 4 * 16 + y / 16, y % 16 * 4] = [x, y]
      show [(x / 4) * 4 + (x % 4 * 16 + y / 16) / 16,
            ((x % 4 * 16 + y / 16) % 16) * 16 + (y % 16 * 4) / 4] = [x, y]
      have h1 : (x / 4) * 4 + (x % 4 * 16 + y / 16) / 16 = x := by omega
      have h2 : ((x % 4 * 16 + y / 16) % 16) * 16 + (y % 16 * 4) / 4 = y := by
        omega
      rw [h1, h2]
  | x :: y :: z :: rest, h => by
      have hx := h x (by simp)
      have hy := h y (by simp)
      have hz := h z (by simp)
      have ih := decodeSextets_toSextets rest (fun b hb => h b (by simp [hb]))
      rw [toSextets, decodeSextets, ih]
      have h1 : x / 4 * 4 + ((x % 4) * 16 + y / 16) / 16 = x := by omega
      have h2 : (((x % 4) * 16 + y / 16) % 16) * 16 +
          ((y % 16) * 4 + z / 64) / 4 = y := by omega
      have h3 : (((y % 16) * 4 + z / 64) % 4) * 64 + z % 64 = z := by omega
      rw [h1, h2, h3]

theorem stripWs_encode (bytes : List Nat) :
    stripWs ((toSextets bytes).map b64Char ++ padChars bytes.length) =
      (toSextets bytes).map b64Char ++ padChars bytes.length := by
  unfold stripWs
  rw [List.filter_eq_self]
  intro a ha
  rcases List.mem_append.mp ha with h | h
  · rcases List.mem_map.mp h with ⟨v, _, rfl⟩
    rw [b64Char_not_ws v]
    rfl
  · rw [padChars_mem _ _ h]
    rfl

theorem stripPad_encode (bytes : List Nat) :
    stripPad ((toSextets bytes).map b64Char ++ padChars bytes.length) =
      (toSextets bytes).map b64Char := by
  have hcore_len : ((toSextets bytes).map b64Char).length =
      (4 * bytes.length + 2) / 3 := by
    rw [List.length_map, toSextets_length]
  have hne : ∀ c ∈ (toSextets bytes).map b64Char, c ≠ '=' := by
    intro c hc
    rcases List.mem_map.mp hc with ⟨v, _, rfl⟩
    exact b64Char_ne_pad v
  have h3 : bytes.length % 3 = 0 ∨ bytes.length % 3 = 1 ∨
      bytes.length % 3 = 2 := by omega
  rcases h3 with h | h | h
  · have hpad : padChars bytes.length = [] := by
      unfold padChars
      rw [h]
    rw [hpad, List.append_nil]
    unfold stripPad
    rw [if_pos (show ((toSextets bytes).map b64Char).length % 4 = 0 by
      rw [hcore_len]; omega)]
    rcases hrev : ((toSextets bytes).map b64Char).reverse with _ | ⟨c1, rest1⟩
    · rfl
    · have hc1 : c1 ≠ '=' := by
        refine hne c1 (List.mem_reverse.mp ?_)
        rw [hrev]
        exact List.mem_cons_self c1 rest1
      dsimp only
      rw [if_neg hc1]
  · have hpad : padChars bytes.length = ['=', '='] := by
      unfold padChars
      rw [h]
    rw [hpad]
    unfold stripPad
    rw [if_pos (show (((toSextets bytes).map b64Char) ++ ['=', '=']).length % 4
        = 0 by
      rw [List.length_append, hcore_len]
      show ((4 * bytes.length + 2) / 3 + 2) % 4 = 0
      omega)]
    rw [List.reverse_append]
    rw [show (['=', '='] : List Char).reverse ++
        ((toSextets bytes).map b64Char).reverse =
        '=' :: '=' :: ((toSextets bytes).map b64Char).reverse from rfl]
    dsimp only
    rw [if_pos rfl, if_pos rfl, List.reverse_reverse]
  · have hpad : padChars bytes.length = ['='] := by
      unfold padChars
      rw [h]
    rw [hpad]
    unfold stripPad
    rw [if_pos (show (((toSextets bytes).map b64Char) ++ ['=']).length % 4
        = 0 by
      rw [List.length_append, hcore_len]
      show ((4 * bytes.length + 2) / 3 + 1) % 4 = 0
      omega)]
    rw [List.reverse_append]
    rw [show (['='] : List Char).reverse ++
        ((toSextets bytes).map b64Char).reverse =
        '=' :: ((toSextets bytes).map b64Char).reverse from rfl]
    dsimp only
    rw [if_pos rfl]
    rcases hrev : ((toSextets bytes).map b64Char).reverse with _ | ⟨c2, rest2⟩
    · exfalso
      have hlen0 : ((toSextets bytes).map b64Char).length = 0 := by
        rw [← List.length_reverse, hrev]
        rfl
      rw [hcore_len] at hlen0
      omega
    · have hc2 : c2 ≠ '=' := by
        refine hne c2 (List.mem_reverse.mp ?_)
        rw [hrev]
        exact List.mem_cons_self c2 rest2
      dsimp only
      rw [if_neg hc2, ← hrev, List.reverse_reverse]

theorem encode_core_len_ne1 (bytes : List Nat) :
    ((toSextets bytes).map b64Char).length % 4 ≠ 1 := by
  rw [List.length_map, toSextets_length]
  omega

theorem encode_all_isSome (bytes : List Nat) (hb : ∀ b ∈ bytes, b < 256) :
    ((toSextets bytes).map b64Char).all (fun c => (b64Index c).isSome) = true := by
  rw [List.all_eq_true]
  intro c hc
  rcases List.mem_map.mp hc with ⟨v, hv, rfl⟩
  rw [b64Index_b64Char v (toSextets_lt bytes hb v hv)]
  rfl

theorem encode_map_index (bytes : List Nat) (hb : ∀ b ∈ bytes, b < 256) :
    ((toSextets bytes).map b64Char).map (fun c => (b64Index c).getD 0) =
      toSextets bytes := by
  rw [List.map_map]
  have hcongr : ∀ v ∈ toSextets bytes,
      ((fun c => (b64Index c).getD 0) ∘ b64Char) v = id v := by
    intro v hv
    show (b64Index (b64Char v)).getD 0 = v
    rw [b64Index_b64Char v (toSextets_lt bytes hb v hv)]
    rfl
  rw [List.map_congr_left hcongr, List.map_id]

/-- C9: the base64 decoder recovers the full byte sequence from every
standard base64 encoding, and it fails (returns none, as atob throws)
exactly on the strings rejected by forgiving-base64 well-formedness:
there is no silent truncation, every failure is explicit. -/
theorem c9_base64_decodes_valid_rejects_malformed :
    (∀ bytes : List Nat, (∀ b ∈ bytes, b < 256) →
      decodeBase64 (encodeBase64 bytes) = some bytes) ∧
    (∀ s : String, decodeBase64 s = none ↔ wellFormedB64 s = false) := by
  constructor
  · intro bytes hb
    unfold decodeBase64 atobBytes encodeBase64
    rw [show (String.mk ((toSextets bytes).map b64Char ++
        padChars bytes.length)).data =
        (toSextets bytes).map b64Char ++ padChars bytes.length from rfl]
    rw [stripWs_encode, stripPad_encode]
    rw [if_neg (encode_core_len_ne1 bytes)]
    rw [if_pos (encode_all_isSome bytes hb)]
    rw [encode_map_index bytes hb, decodeSextets_toSextets bytes hb]
  · intro s
    unfold decodeBase64 atobBytes wellFormedB64
    by_cases h1 : (stripPad (stripWs s.data)).length % 4 = 1
    · rw [if_pos h1]
      simp [h1]
    · rw [if_neg h1]
      by_cases h2 : (stripPad (stripWs s.data)).all
          (fun c => (b64Index c).isSome) = true
      · rw [if_pos h2]
        simp [h1, h2]
      · rw [if_neg h2]
        simp [h1, h2]

/-- Witness for C9 at a concrete byte sequence and a concrete malformed
string. -/
theorem c9_witness :
    decodeBase64 (encodeBase64 [0, 255, 16]) = some [0, 255, 16] ∧
    (decodeBase64 "A" = none ↔ wellFormedB64 "A" = false) :=
  ⟨c9_base64_decodes_valid_rejects_malformed.1 [0, 255, 16] (by decide),
   c9_base64_decodes_valid_rejects_malformed.2 "A"⟩

end CityLens
